import Mathlib

/-!
Shallow embedding of `megatron_patch/model/llama2/gpt_model.py` from the
Pai-Megatron-Patch repository: the `post_language_model_processing` function
and the `GPTModel` wrapper (forward routing, checkpoint save/load key
remapping).  Framework pieces that the file imports (`parallel_lm_logits`,
`vocab_parallel_cross_entropy`, the language-model backbone and the base
module's embedding utilities) are not part of the source tree; they are
modelled from the specification, with doc comments marking each such model.
-/

set_option linter.unusedVariables false

namespace GptPatch

/-- Torch scalar dtypes, restricted to the ones the embedded code can
distinguish: `torch.half` (fp16), `torch.float` (fp32), integer label
dtype, and a catch-all for everything else. -/
inductive DType where
  | half
  | float
  | long
  | other
  deriving DecidableEq

/-- A torch tensor, modelled as a row-major flat data list together with its
shape and dtype.  Numeric contents are abstracted to integers; the embedded
code never inspects element values, only shapes and dtypes. -/
structure Tensor where
  shape : List Nat
  dtype : DType
  data : List Int
  deriving DecidableEq

/-- `t.transpose(0, 1).contiguous()` materialised: swaps the first two axes,
permuting the row-major data accordingly.  On tensors of fewer than two
dimensions (where torch would reject the axis pair) the tensor is returned
unchanged. -/
def Tensor.transpose01 (t : Tensor) : Tensor :=
  match t.shape with
  | a :: b :: rest =>
    let inner := rest.prod
    { shape := b :: a :: rest
      dtype := t.dtype
      data := (List.range b).flatMap (fun j =>
        (List.range a).flatMap (fun i =>
          (t.data.drop ((i * b + j) * inner)).take inner)) }
  | _ => t

/-- `t.contiguous()`: a no-op on the value level (the embedding has no
stride notion; `transpose01` already produces the contiguous layout). -/
def Tensor.contiguous (t : Tensor) : Tensor := t

/-- `t.float()`: cast to fp32; data values are unchanged in the integer
abstraction. -/
def Tensor.float (t : Tensor) : Tensor := { t with dtype := DType.float }

/-- A (possibly nested) torch state dict: string keys mapping to parameter
tensors or to sub-dicts. -/
inductive SDict where
  | tensor : Tensor → SDict
  | dict : List (String × SDict) → SDict

/-- Modelled from the spec: `parallel_lm_logits` is "a logits-projection
function" consumed from the external framework; it projects the backbone
output `[s, b, h]` with the weight matrix `[v, h]` to logits `[s, b, v]`,
preserving the input dtype.  Only the output layout and dtype are described
by the spec; the numeric projection (and any tensor-parallel gather
controlled by `parallel_output`) is owned by the external framework, so the
data is left unconstrained (zeros). -/
def parallel_lm_logits (lm_output : Tensor) (logit_weights : Tensor)
    (parallel_output : Bool) : Tensor :=
  let outShape := lm_output.shape.dropLast ++ [logit_weights.shape.headD 0]
  { shape := outShape
    dtype := lm_output.dtype
    data := List.replicate outShape.prod 0 }

/-- Modelled from the spec: `tensor_parallel.vocab_parallel_cross_entropy`
is "a parallel cross-entropy reduction" producing "a per-token loss tensor"
from logits `[s, b, v]` and target labels `[s, b]`; the loss has the logits
shape with the vocabulary axis reduced away.  The numeric reduction is
owned by the external framework, so the data is left unconstrained
(zeros). -/
def vocab_parallel_cross_entropy (vocab_parallel_logits : Tensor)
    (target : Tensor) : Tensor :=
  { shape := vocab_parallel_logits.shape.dropLast
    dtype := vocab_parallel_logits.dtype
    data := List.replicate vocab_parallel_logits.shape.dropLast.prod 0 }

/-- Modelled from the spec: the language-model backbone returned by
`get_language_model` — "a callable backbone plus a lookup key".  The call
behaviour is an opaque function of the forward inputs; `output_layer.weight`
is the untied output-projection weight; `set_input_tensor` stores the
pipeline-parallel input injection point; the checkpoint state is an opaque
state dict with the base class's save/load contract (save returns the held
state, load replaces it). -/
structure LanguageModel where
  forwardFn : Tensor → Option Tensor → Option Tensor → Tensor
  output_layer_weight : Tensor
  input_tensor : Option Tensor
  state : SDict

/-- Modelled from the spec: backbone checkpoint save (base-class
contract). -/
def LanguageModel.state_dict_for_save_checkpoint (lm : LanguageModel) :
    SDict := lm.state

/-- Modelled from the spec: backbone checkpoint load (base-class contract);
the `strict` flag governs key-mismatch errors inside the external loader and
has no observable effect in the model. -/
def LanguageModel.load_state_dict (lm : LanguageModel) (sd : SDict)
    (strict : Bool) : LanguageModel := { lm with state := sd }

/-- Modelled from the spec: backbone input-tensor injection point. -/
def LanguageModel.set_input_tensor (lm : LanguageModel) (t : Tensor) :
    LanguageModel := { lm with input_tensor := some t }

/-- Modelled from the spec: the shared word-embedding module held by the
base class for the last pipeline stage ("tied embeddings"). -/
structure Embedding where
  weight : Tensor
  deriving DecidableEq

/-- Modelled from the spec: `word_embeddings.state_dict(...)` — the
embedding module's parameters keyed by name. -/
def Embedding.state_dict (e : Embedding) : SDict :=
  SDict.dict [("weight", SDict.tensor e.weight)]

/-- Modelled from the spec: `word_embeddings.load_state_dict(...)` — the
strict-mode loader restores the weight from the matching key and surfaces a
key-mismatch error otherwise. -/
def Embedding.load_state_dict (e : Embedding) (sd : SDict) (strict : Bool) :
    Except String Embedding :=
  match sd with
  | SDict.dict [("weight", SDict.tensor w)] => Except.ok { weight := w }
  | _ => Except.error "Embedding.load_state_dict: unexpected state dict"

/-- The backbone lookup key returned by `get_language_model`.  Modelled from
the spec ("a callable backbone plus a lookup key"); the framework's key is
the string below. -/
def language_model_key : String := "language_model"

/-- The base class's `_word_embeddings_for_head_key` used for the shared
embedding copy on the last stage.  Modelled from the spec. -/
def word_embeddings_for_head_key : String := "word_embeddings_for_head"

/-- `post_language_model_processing(lm_output, labels, logit_weights,
parallel_output, fp16_lm_cross_entropy)` from `gpt_model.py`.  The Python
`assert output.dtype == torch.half` is embedded as an `Except.error`
result. -/
def post_language_model_processing (lm_output : Tensor)
    (labels : Option Tensor) (logit_weights : Tensor)
    (parallel_output : Bool) (fp16_lm_cross_entropy : Bool) :
    Except String Tensor :=
  let output := parallel_lm_logits lm_output logit_weights parallel_output
  match labels with
  | none =>
    Except.ok (output.transpose01.contiguous)
  | some labels0 =>
    let labels1 := labels0.transpose01.contiguous
    if fp16_lm_cross_entropy then
      if output.dtype = DType.half then
        let loss := vocab_parallel_cross_entropy output labels1
        Except.ok (loss.transpose01.contiguous)
      else
        Except.error "AssertionError: output.dtype == torch.half"
    else
      let loss := vocab_parallel_cross_entropy output.float labels1
      Except.ok (loss.transpose01.contiguous)

/-- The `GPTModel` wrapper state: the configuration flags fixed by
`__init__` plus the composed backbone and (for tied embeddings) the base
class's shared word-embedding module. -/
structure GPTModel where
  parallel_output : Bool
  pre_process : Bool
  post_process : Bool
  fp16_lm_cross_entropy : Bool
  untie_embeddings_and_output_weights : Bool
  language_model : LanguageModel
  word_embeddings : Embedding

/-- Modelled from the spec: the base class's `word_embeddings_weight()`
accessor for the tied output-projection weight. -/
def GPTModel.word_embeddings_weight (m : GPTModel) : Tensor :=
  m.word_embeddings.weight

/-- The weight selection inlined in `GPTModel.forward`:
`self.language_model.output_layer.weight if
self.untie_embeddings_and_output_weights else
self.word_embeddings_weight()`. -/
def GPTModel.logit_weights (m : GPTModel) : Tensor :=
  if m.untie_embeddings_and_output_weights then
    m.language_model.output_layer_weight
  else
    m.word_embeddings_weight

/-- `GPTModel.set_input_tensor`: delegates to the backbone. -/
def GPTModel.set_input_tensor (m : GPTModel) (t : Tensor) : GPTModel :=
  { m with language_model := m.language_model.set_input_tensor t }

/-- `GPTModel.forward`: run the backbone, then apply
`post_language_model_processing` exactly when `post_process` holds;
otherwise return the backbone output unchanged.  `inference_params` is
opaque plumbing into the backbone call and is folded into `forwardFn`. -/
def GPTModel.forward (m : GPTModel) (input_ids : Tensor)
    (position_ids : Option Tensor) (attention_mask : Option Tensor)
    (labels : Option Tensor) : Except String Tensor :=
  let lm_output := m.language_model.forwardFn input_ids position_ids
    attention_mask
  if m.post_process then
    post_language_model_processing lm_output labels m.logit_weights
      m.parallel_output m.fp16_lm_cross_entropy
  else
    Except.ok lm_output

/-- `GPTModel.state_dict_for_save_checkpoint`: the backbone state under the
language-model key, plus — exactly on a post-processing, non-pre-processing
stage with tied embeddings — the shared word embeddings under the
head key.  The pass-through arguments `prefix`/`keep_vars` only thread into
the external savers and are omitted. -/
def GPTModel.state_dict_for_save_checkpoint (m : GPTModel) :
    List (String × SDict) :=
  let base := [(language_model_key,
    m.language_model.state_dict_for_save_checkpoint)]
  if m.post_process && !m.pre_process &&
      !m.untie_embeddings_and_output_weights then
    base ++ [(word_embeddings_for_head_key, m.word_embeddings.state_dict)]
  else
    base

/-- `GPTModel.load_state_dict`: on a post-processing, non-pre-processing
stage with tied embeddings, load the shared word embeddings from the head
key (a missing key is Python's fatal `KeyError`); then strip the
language-model key if present and hand the payload to the backbone
loader. -/
def GPTModel.load_state_dict (m : GPTModel)
    (state_dict : List (String × SDict)) (strict : Bool) :
    Except String GPTModel := do
  let m1 ←
    if m.post_process && !m.pre_process &&
        !m.untie_embeddings_and_output_weights then
      match state_dict.lookup word_embeddings_for_head_key with
      | some sub => do
        let we ← m.word_embeddings.load_state_dict sub strict
        pure { m with word_embeddings := we }
      | none => Except.error "KeyError: word_embeddings_for_head"
    else
      pure m
  let payload :=
    match state_dict.lookup language_model_key with
    | some sub => sub
    | none => SDict.dict state_dict
  pure { m1 with
    language_model := m1.language_model.load_state_dict payload strict }

/-! ### Concrete fixtures used by witnesses and counterexamples -/

/-- An all-zero tensor of the given shape and dtype. -/
def zeroTensor (s : List Nat) (d : DType) : Tensor :=
  { shape := s, dtype := d, data := List.replicate s.prod 0 }

/-- A concrete backbone whose forward call returns the fixed tensor `out`
and whose untied output projection weight is `w`. -/
def sampleBackbone (out w : Tensor) : LanguageModel :=
  { forwardFn := fun _ _ _ => out
    output_layer_weight := w
    input_tensor := none
    state := SDict.dict [("encoder", SDict.tensor (zeroTensor [4, 4] DType.float))] }

/-- Backbone output `[s, b, h] = [2, 3, 4]` in fp32. -/
def tOut234 : Tensor := zeroTensor [2, 3, 4] DType.float

/-- Backbone output `[2, 3, 4]` in fp16. -/
def tOutHalf : Tensor := zeroTensor [2, 3, 4] DType.half

/-- Projection weight `[v, h] = [5, 4]`: vocabulary size 5 differs from
hidden size 4. -/
def tW54 : Tensor := zeroTensor [5, 4] DType.float

/-- Token ids `[b, s] = [3, 2]`. -/
def tIds : Tensor := zeroTensor [3, 2] DType.long

/-- Labels `[b, s] = [3, 2]`. -/
def tLab : Tensor := zeroTensor [3, 2] DType.long

/-- A last-stage (`post_process`), first-stage, untied-embedding wrapper
over the concrete backbone. -/
def mShape : GPTModel :=
  { parallel_output := true
    pre_process := true
    post_process := true
    fp16_lm_cross_entropy := false
    untie_embeddings_and_output_weights := true
    language_model := sampleBackbone tOut234 tW54
    word_embeddings := { weight := tW54 } }

/-- `mShape` with post-processing disabled (an intermediate stage). -/
def mNoPost : GPTModel := { mShape with post_process := false }

/-- A tied-embedding, last-stage, non-first-stage wrapper: the
configuration that stores the shared embedding under the head key. -/
def mTied : GPTModel :=
  { mShape with
    pre_process := false
    untie_embeddings_and_output_weights := false }

/-- `true` exactly on an `Except.ok` result: the call returned normally
rather than raising. -/
def exceptIsOk (r : Except String Tensor) : Bool :=
  match r with
  | Except.ok _ => true
  | Except.error _ => false

/-! ### Claim theorems -/

/-- C9: when `labels` is `none`, `post_language_model_processing` never
reaches the precision-consistency assertion: the call returns normally for
every precision flag and every projected-output dtype. -/
theorem labels_none_returns_normally (lm_output logit_weights : Tensor)
    (parallel_output fp16_lm_cross_entropy : Bool) :
    exceptIsOk (post_language_model_processing lm_output none logit_weights
      parallel_output fp16_lm_cross_entropy) = true := rfl

/-- C2: with labels provided and the `fp16_lm_cross_entropy` flag set, the
call fails (the embedded `assert output.dtype == torch.half`) exactly when
the projected output's dtype is not half precision; with the flag unset or
a half-precision projected output, the call returns normally. -/
theorem fp16_assert_on_projected_dtype (lm_output labels0 logit_weights :
    Tensor) (parallel_output fp16_lm_cross_entropy : Bool) :
    (fp16_lm_cross_entropy = true →
      (parallel_lm_logits lm_output logit_weights parallel_output).dtype ≠
        DType.half →
      exceptIsOk (post_language_model_processing lm_output (some labels0)
        logit_weights parallel_output fp16_lm_cross_entropy) = false) ∧
    ((fp16_lm_cross_entropy = false ∨
      (parallel_lm_logits lm_output logit_weights parallel_output).dtype =
        DType.half) →
      exceptIsOk (post_language_model_processing lm_output (some labels0)
        logit_weights parallel_output fp16_lm_cross_entropy) = true) := by
  constructor
  · rintro rfl hne
    simp [post_language_model_processing, exceptIsOk, hne]
  · rintro (rfl | hh)
    · simp [post_language_model_processing, exceptIsOk]
    · cases fp16_lm_cross_entropy
      · simp [post_language_model_processing, exceptIsOk]
      · simp [post_language_model_processing, exceptIsOk, hh]

/-- C2 witness: a non-half projected output with the flag set fails; a half
projected output with the flag set succeeds. -/
theorem fp16_assert_on_projected_dtype_witness :
    exceptIsOk (post_language_model_processing tOut234 (some tLab) tW54
      true true) = false ∧
    exceptIsOk (post_language_model_processing tOutHalf (some tLab) tW54
      true true) = true :=
  ⟨(fp16_assert_on_projected_dtype tOut234 tLab tW54 true true).1 rfl
      (by decide),
   (fp16_assert_on_projected_dtype tOutHalf tLab tW54 true true).2
      (Or.inr (by decide))⟩

/-- C7: `post_language_model_processing` is deterministic in its explicit
arguments — two calls with equal backbone output, labels, projection
weights, parallelism flag and precision flag return equal results; the
embedding is a pure function of exactly these inputs, reflecting that the
source reads and writes no wrapper or global state. -/
theorem post_processing_pure (a1 a2 : Tensor) (l1 l2 : Option Tensor)
    (w1 w2 : Tensor) (p1 p2 f1 f2 : Bool)
    (ha : a1 = a2) (hl : l1 = l2) (hw : w1 = w2) (hp : p1 = p2)
    (hf : f1 = f2) :
    post_language_model_processing a1 l1 w1 p1 f1 =
      post_language_model_processing a2 l2 w2 p2 f2 := by
  subst ha; subst hl; subst hw; subst hp; subst hf; rfl

/-- C7 witness: two syntactically separate calls on equal concrete inputs
agree. -/
theorem post_processing_pure_witness :
    post_language_model_processing tOut234 (some tLab) tW54 true false =
      post_language_model_processing tOut234 (some tLab) tW54 true false :=
  post_processing_pure tOut234 tOut234 (some tLab) (some tLab) tW54 tW54
    true true false false rfl rfl rfl rfl rfl

/-- Swap the first two entries of a shape (the claimed output shape for the
no-labels forward path). -/
def swapFirstTwo : List Nat → List Nat
  | a :: b :: rest => b :: a :: rest
  | l => l

/-- The concrete tensor returned by `mShape.forward` with no labels. -/
def noLabelsResult : Tensor :=
  (parallel_lm_logits tOut234 tW54 true).transpose01.contiguous

/-- C1 counterexample: with backbone output shape `[2, 3, 4]` and a `[5, 4]`
projection weight, the no-labels forward output has shape `[3, 2, 5]`, not
the backbone shape with the first two axes swapped (`[3, 2, 4]`): the
logits projection replaces the hidden axis by the vocabulary axis. -/
theorem forward_no_labels_shape_counterexample :
    mShape.forward tIds none none none = Except.ok noLabelsResult ∧
    noLabelsResult.shape ≠
      swapFirstTwo (mShape.language_model.forwardFn tIds none none).shape :=
  ⟨rfl, by decide⟩

/-- C1 (amended): with post-processing enabled and `labels = none`, the
forward output shape is the backbone output shape with the first two
(sequence and batch) axes swapped and the last (hidden) axis replaced by
the logits-projection output size, i.e. the row count of the selected
projection weight. -/
theorem forward_no_labels_shape (m : GPTModel) (input_ids : Tensor)
    (position_ids attention_mask : Option Tensor) (s b h : Nat)
    (hpost : m.post_process = true)
    (hsh : (m.language_model.forwardFn input_ids position_ids
      attention_mask).shape = [s, b, h]) :
    Except.map Tensor.shape
        (m.forward input_ids position_ids attention_mask none) =
      Except.ok [b, s, m.logit_weights.shape.headD 0] := by
  simp [GPTModel.forward, hpost, post_language_model_processing,
    parallel_lm_logits, Tensor.transpose01, Tensor.contiguous, Except.map,
    hsh]

/-- C1 witness: the amended shape law evaluated on the concrete wrapper. -/
theorem forward_no_labels_shape_witness :
    Except.map Tensor.shape (mShape.forward tIds none none none) =
      Except.ok [3, 2, mShape.logit_weights.shape.headD 0] :=
  forward_no_labels_shape mShape tIds none none 2 3 4 rfl rfl

/-- C4: with post-processing enabled and labels of shape `[b, s]` matching a
backbone output of shape `[s, b, h]`, any loss tensor returned by forward
has the labels' (batch-major) shape: the labels are swapped to
sequence-major for the cross-entropy reduction and the loss is swapped
back. -/
theorem forward_labels_loss_shape (m : GPTModel) (input_ids : Tensor)
    (position_ids attention_mask : Option Tensor) (lab t : Tensor)
    (s b h : Nat)
    (hpost : m.post_process = true)
    (hlab : lab.shape = [b, s])
    (hout : (m.language_model.forwardFn input_ids position_ids
      attention_mask).shape = [s, b, h])
    (hret : m.forward input_ids position_ids attention_mask (some lab) =
      Except.ok t) :
    t.shape = lab.shape := by
  simp only [GPTModel.forward, hpost, if_true,
    post_language_model_processing] at hret
  split at hret
  · split at hret
    · rw [Except.ok.injEq] at hret
      subst hret
      simp [vocab_parallel_cross_entropy, Tensor.transpose01,
        Tensor.contiguous, parallel_lm_logits, hout, hlab]
    · exact absurd hret (by simp)
  · rw [Except.ok.injEq] at hret
    subst hret
    simp [vocab_parallel_cross_entropy, Tensor.transpose01,
      Tensor.contiguous, Tensor.float, parallel_lm_logits, hout, hlab]

/-- The concrete loss tensor produced by `mShape.forward` on `tLab`. -/
def lossResult : Tensor :=
  (vocab_parallel_cross_entropy
    ((parallel_lm_logits tOut234 tW54 true).float)
    (tLab.transpose01.contiguous)).transpose01.contiguous

/-- C4 witness: the loss-shape law evaluated on the concrete wrapper. -/
theorem forward_labels_loss_shape_witness : lossResult.shape = tLab.shape :=
  forward_labels_loss_shape mShape tIds none none tLab lossResult 2 3 4
    rfl rfl rfl rfl

/-- C6: forward applies `post_language_model_processing` to the backbone
output exactly when `post_process` holds; with `post_process` false the
backbone output is returned unchanged. -/
theorem forward_routes_post_processing (m : GPTModel) (input_ids : Tensor)
    (position_ids attention_mask labels : Option Tensor) :
    (m.post_process = false →
      m.forward input_ids position_ids attention_mask labels =
        Except.ok (m.language_model.forwardFn input_ids position_ids
          attention_mask)) ∧
    (m.post_process = true →
      m.forward input_ids position_ids attention_mask labels =
        post_language_model_processing
          (m.language_model.forwardFn input_ids position_ids attention_mask)
          labels m.logit_weights m.parallel_output
          m.fp16_lm_cross_entropy) := by
  constructor
  · intro h
    simp [GPTModel.forward, h]
  · intro h
    simp [GPTModel.forward, h]

/-- C6 witness: routing evaluated on a non-final stage and on a final
stage. -/
theorem forward_routes_post_processing_witness :
    mNoPost.forward tIds none none none =
      Except.ok (mNoPost.language_model.forwardFn tIds none none) ∧
    mShape.forward tIds none none none =
      post_language_model_processing
        (mShape.language_model.forwardFn tIds none none) none
        mShape.logit_weights mShape.parallel_output
        mShape.fp16_lm_cross_entropy :=
  ⟨(forward_routes_post_processing mNoPost tIds none none none).1 rfl,
   (forward_routes_post_processing mShape tIds none none none).2 rfl⟩

/-- C3: the saved checkpoint mapping contains the word-embeddings-for-head
key exactly when the instance is a post-processing, non-pre-processing
stage with tied embeddings; with untied embeddings the mapping is exactly
the singleton language-model entry. -/
theorem save_head_key_iff (m : GPTModel) :
    ((m.state_dict_for_save_checkpoint.lookup
        word_embeddings_for_head_key).isSome = true ↔
      (m.post_process = true ∧ m.pre_process = false ∧
        m.untie_embeddings_and_output_weights = false)) ∧
    (m.untie_embeddings_and_output_weights = true →
      m.state_dict_for_save_checkpoint =
        [(language_model_key,
          m.language_model.state_dict_for_save_checkpoint)]) := by
  obtain ⟨po, pre, post, fp, untie, lm, we⟩ := m
  cases pre <;> cases post <;> cases untie <;>
    simp [GPTModel.state_dict_for_save_checkpoint, language_model_key,
      word_embeddings_for_head_key, List.lookup]

/-- C3 witness: the untied concrete wrapper's checkpoint mapping is the
singleton language-model entry. -/
theorem save_head_key_iff_witness :
    mShape.state_dict_for_save_checkpoint =
      [(language_model_key,
        mShape.language_model.state_dict_for_save_checkpoint)] :=
  (save_head_key_iff mShape).2 rfl

/-- C5: saving a checkpoint from `m1` and loading it into `m2` with
matching stage-configuration flags succeeds and restores every parameter
tensor saved from `m1`: the backbone state becomes `m1`'s, and on a tied,
post-processing, non-pre-processing stage the shared word embeddings become
`m1`'s as well. -/
theorem checkpoint_roundtrip (m1 m2 : GPTModel)
    (hpre : m2.pre_process = m1.pre_process)
    (hpost : m2.post_process = m1.post_process)
    (huntie : m2.untie_embeddings_and_output_weights =
      m1.untie_embeddings_and_output_weights) :
    m2.load_state_dict m1.state_dict_for_save_checkpoint true =
      Except.ok { m2 with
        language_model :=
          { m2.language_model with state := m1.language_model.state },
        word_embeddings :=
          if m2.post_process && !m2.pre_process &&
              !m2.untie_embeddings_and_output_weights then
            m1.word_embeddings
          else m2.word_embeddings } := by
  obtain ⟨po1, pre1, post1, fp1, untie1, lm1, we1⟩ := m1
  obtain ⟨po2, pre2, post2, fp2, untie2, lm2, we2⟩ := m2
  dsimp only at hpre hpost huntie
  subst hpre; subst hpost; subst huntie
  cases pre2 <;> cases post2 <;> cases untie2 <;>
    simp [GPTModel.load_state_dict, GPTModel.state_dict_for_save_checkpoint,
      LanguageModel.state_dict_for_save_checkpoint,
      LanguageModel.load_state_dict, Embedding.state_dict,
      Embedding.load_state_dict, language_model_key,
      word_embeddings_for_head_key, List.lookup, bind, Except.bind, pure,
      Except.pure]

/-- C5 witness: the round trip evaluated on the tied last-stage concrete
wrapper. -/
theorem checkpoint_roundtrip_witness :
    mTied.load_state_dict mTied.state_dict_for_save_checkpoint true =
      Except.ok { mTied with
        language_model :=
          { mTied.language_model with state := mTied.language_model.state },
        word_embeddings :=
          if mTied.post_process && !mTied.pre_process &&
              !mTied.untie_embeddings_and_output_weights then
            mTied.word_embeddings
          else mTied.word_embeddings } :=
  checkpoint_roundtrip mTied mTied rfl rfl rfl

/-- Any successful `load_state_dict` call produces the input wrapper with
(at most) the word embeddings replaced and the backbone loader applied to
the payload selected by the language-model key. -/
lemma load_ok_form (m : GPTModel) (sd : List (String × SDict))
    (strict : Bool) (mr : GPTModel)
    (h : m.load_state_dict sd strict = Except.ok mr) :
    ∃ we : Embedding, mr = { m with
      word_embeddings := we,
      language_model := m.language_model.load_state_dict
        (match sd.lookup language_model_key with
         | some sub => sub
         | none => SDict.dict sd) strict } := by
  simp only [GPTModel.load_state_dict] at h
  split at h
  · cases hl : sd.lookup word_embeddings_for_head_key with
    | none =>
      rw [hl] at h
      simp [bind, Except.bind] at h
    | some sub =>
      rw [hl] at h
      cases hw : m.word_embeddings.load_state_dict sub strict with
      | error e =>
        simp [bind, Except.bind, hw] at h
      | ok we0 =>
        simp only [bind, Except.bind, hw, pure, Except.pure,
          Except.ok.injEq] at h
        exact ⟨we0, h.symm⟩
  · simp only [bind, Except.bind, pure, Except.pure,
      Except.ok.injEq] at h
    exact ⟨m.word_embeddings, h.symm⟩

/-- C8: the stage-configuration booleans are preserved by every operation
that yields a wrapper: `set_input_tensor` leaves them unchanged, and any
wrapper produced by a successful `load_state_dict` carries the original
flags.  (`forward` and `state_dict_for_save_checkpoint` return tensors and
mappings, not wrappers, and the embedding threads the wrapper through them
unchanged.) -/
theorem stage_flags_fixed (m : GPTModel) (t : Tensor)
    (sd : List (String × SDict)) (strict : Bool) (mr : GPTModel) :
    ((m.set_input_tensor t).pre_process = m.pre_process ∧
     (m.set_input_tensor t).post_process = m.post_process) ∧
    (m.load_state_dict sd strict = Except.ok mr →
      mr.pre_process = m.pre_process ∧ mr.post_process = m.post_process)
    := by
  refine ⟨⟨rfl, rfl⟩, fun h => ?_⟩
  obtain ⟨we, rfl⟩ := load_ok_form m sd strict mr h
  exact ⟨rfl, rfl⟩

/-- A state dict that does not contain the language-model key. -/
def sdNoKey : List (String × SDict) := [("other_key", SDict.tensor tW54)]

/-- The wrapper obtained by loading `sdNoKey` into `mShape`. -/
def mLoadedNoKey : GPTModel :=
  { mShape with
    language_model :=
      mShape.language_model.load_state_dict (SDict.dict sdNoKey) true }

/-- C8 witness: flags after a successful concrete load equal the original
flags. -/
theorem stage_flags_fixed_witness :
    mLoadedNoKey.pre_process = mShape.pre_process ∧
    mLoadedNoKey.post_process = mShape.post_process :=
  (stage_flags_fixed mShape tIds sdNoKey true mLoadedNoKey).2 rfl

/-- C10: the backbone loader receives the sub-mapping under the
language-model key when that key is present, and the entire given mapping
unchanged when it is absent. -/
theorem load_payload_to_backbone (m : GPTModel)
    (sd : List (String × SDict)) (strict : Bool) (mr : GPTModel)
    (h : m.load_state_dict sd strict = Except.ok mr) :
    mr.language_model = m.language_model.load_state_dict
      (match sd.lookup language_model_key with
       | some sub => sub
       | none => SDict.dict sd) strict := by
  obtain ⟨we, rfl⟩ := load_ok_form m sd strict mr h
  rfl

/-- C10 witness: loading a mapping without the language-model key hands the
whole mapping to the backbone loader. -/
theorem load_payload_to_backbone_witness :
    mLoadedNoKey.language_model = mShape.language_model.load_state_dict
      (match sdNoKey.lookup language_model_key with
       | some sub => sub
       | none => SDict.dict sdNoKey) true :=
  load_payload_to_backbone mShape sdNoKey true mLoadedNoKey rfl

end GptPatch
